import Mathlib

/-!
Verification of the two template-rendering scripts
`src/scripts/transform_jinja2.py` and `src/client/scripts/transform_jinja2.py`.

The scripts read a Jinja2 template from standard input, parse a JSON data
file named by the first command-line argument, render the template with the
binding `data`, and print the rendered text followed by a four-line
provenance trailer.  The original logic consists of two custom template
filters (`tif`, `mapattr`) and a line-sanitising helper; everything else is
straight-line driver code.  We embed the Python values the filters operate
on, the filters themselves, and the driver pipeline (with the external
template engine and the JSON reader abstracted as functions supplied by the
environment), and prove or refute the specification claims against them.
-/

/-- Python/JSON values as they occur in this program: the result of
`json.load` (mappings, sequences, strings, numbers, booleans, `None`) and
the values flowing through the custom filters.  Numbers are modelled as
rationals; a mapping is a key-value list with distinct keys (the shape
`json.load` produces). -/
inductive PyVal where
  | null
  | bool (b : Bool)
  | num (q : ℚ)
  | str (s : String)
  | list (xs : List PyVal)
  | dict (entries : List (String × PyVal))

/-- Python exceptions that the embedded fragments can raise. -/
inductive PyErr where
  | keyError (key : String)
  | typeError (msg : String)
  | ioError (msg : String)
  | jsonError (msg : String)
  | renderError (msg : String)
deriving DecidableEq

/-- Attributes every CPython object has (inherited from `object`).
Models the CPython builtin attribute set used by `hasattr`. -/
def objectAttrNames : List String :=
  ["__class__", "__delattr__", "__dir__", "__doc__", "__eq__", "__format__",
   "__ge__", "__getattribute__", "__gt__", "__hash__", "__init__", "__le__",
   "__lt__", "__ne__", "__new__", "__reduce__", "__repr__", "__setattr__",
   "__sizeof__", "__str__"]

/-- Attributes of CPython `dict` beyond those of `object`: its methods.
Note that the KEYS stored in a dict are not attributes of the dict. -/
def dictAttrNames : List String :=
  ["__contains__", "__delitem__", "__getitem__", "__iter__", "__len__",
   "__setitem__", "clear", "copy", "fromkeys", "get", "items", "keys",
   "pop", "popitem", "setdefault", "update", "values"]

/-- Attributes of CPython `list` beyond those of `object`. -/
def listAttrNames : List String :=
  ["__add__", "__contains__", "__getitem__", "__iter__", "__len__",
   "append", "clear", "copy", "count", "extend", "index", "insert", "pop",
   "remove", "reverse", "sort"]

/-- Attributes of CPython `str` beyond those of `object`. -/
def strAttrNames : List String :=
  ["__add__", "__contains__", "__getitem__", "__iter__", "__len__",
   "capitalize", "casefold", "center", "count", "encode", "endswith",
   "expandtabs", "find", "format", "index", "isalnum", "isalpha", "isdigit",
   "islower", "isspace", "istitle", "isupper", "join", "lower", "lstrip",
   "replace", "rfind", "rindex", "rsplit", "rstrip", "split", "splitlines",
   "startswith", "strip", "swapcase", "title", "upper", "zfill"]

/-- Attributes of CPython numbers (`int`/`float`, and `bool` which is an
`int` subclass) beyond those of `object`. -/
def numAttrNames : List String :=
  ["__abs__", "__add__", "__int__", "bit_length", "conjugate",
   "denominator", "imag", "numerator", "real", "to_bytes"]

/-- Model of the CPython builtin `hasattr(value, name)` on the value shapes
of `PyVal`.  A plain data object such as a dict has only the attributes of
its TYPE (methods and dunders); in particular the keys stored in a dict are
not attributes, so `hasattr` on a dict does not test key membership. -/
def pyHasattr : PyVal → String → Bool
  | PyVal.null, name => objectAttrNames.contains name
  | PyVal.bool _, name => (objectAttrNames ++ numAttrNames).contains name
  | PyVal.num _, name => (objectAttrNames ++ numAttrNames).contains name
  | PyVal.str _, name => (objectAttrNames ++ strAttrNames).contains name
  | PyVal.list _, name => (objectAttrNames ++ listAttrNames).contains name
  | PyVal.dict _, name => (objectAttrNames ++ dictAttrNames).contains name

/-- Key lookup in a dict's entry list (first match; keys are distinct). -/
def dictLookup : List (String × PyVal) → String → Option PyVal
  | [], _ => none
  | (k, v) :: rest, key => if k = key then some v else dictLookup rest key

/-- Model of the CPython subscript expression `value[name]` for a string
subscript `name`: dict item lookup raising `KeyError` when the key is
absent; `TypeError` on strings and lists (whose indices must be integers)
and on non-subscriptable values. -/
def getItem : PyVal → String → Except PyErr PyVal
  | PyVal.dict entries, name =>
      match dictLookup entries name with
      | some v => Except.ok v
      | none => Except.error (PyErr.keyError name)
  | PyVal.str _, _ => Except.error (PyErr.typeError "string indices must be integers")
  | PyVal.list _, _ => Except.error (PyErr.typeError "list indices must be integers")
  | _, _ => Except.error (PyErr.typeError "object is not subscriptable")

/-- Embedding of `map_filter` from `src/scripts/transform_jinja2.py`
(lines 26-31), registered in the template environment as `mapattr`:

    def map_filter(value: any, attribute_name: str, default=None) -> any:
        if hasattr(value, attribute_name):
            return value[attribute_name]
        else:
            return default
-/
def map_filter (value : PyVal) (attribute_name : String) (default : PyVal) :
    Except PyErr PyVal :=
  if pyHasattr value attribute_name then getItem value attribute_name
  else Except.ok default

/-- Calling `map_filter` with its optional third argument omitted: Python
fills in the declared default `None`. -/
def map_filter_nodefault (value : PyVal) (attribute_name : String) :
    Except PyErr PyVal :=
  map_filter value attribute_name PyVal.null

/-- The line-boundary characters recognised by CPython `str.splitlines`:
LF, CR, VT, FF, FS, GS, RS, NEL, LINE SEPARATOR, PARAGRAPH SEPARATOR
(CRLF is handled as a single boundary by the splitter below). -/
def pyLineBreaks : List Char :=
  ['\n', '\r', '\x0b', '\x0c', '\x1c', '\x1d', '\x1e', '\x85', '\u2028', '\u2029']

/-- Whether a character is one of CPython's line boundaries. -/
def isLineBreak (c : Char) : Bool := pyLineBreaks.contains c

/-- Worker for `pySplitlines`: walks the characters, accumulating the
current line (reversed) in `acc`; `keepends` retains the terminator at the
end of each produced segment, as in CPython. -/
def splitlinesGo (keepends : Bool) : List Char → List Char → List (List Char)
  | [], acc => if acc.isEmpty then [] else [acc.reverse]
  | '\r' :: '\n' :: rest, acc =>
      (acc.reverse ++ (if keepends then ['\r', '\n'] else [])) ::
        splitlinesGo keepends rest []
  | c :: rest, acc =>
      if isLineBreak c then
        (acc.reverse ++ (if keepends then [c] else [])) ::
          splitlinesGo keepends rest []
      else
        splitlinesGo keepends rest (c :: acc)

/-- Model of CPython `value.splitlines(keepends)`. -/
def pySplitlines (s : String) (keepends : Bool) : List String :=
  (splitlinesGo keepends s.data []).map (fun cs => String.mk cs)

/-- Model of CPython `s.splitlines(keepends)` where `keepends` is an
arbitrary Python value: the argument converter of `str.splitlines` — an
argument-clinic bool converter that additionally accepts int — admits only
booleans and integers and raises `TypeError` for every other type, in
particular for a string, whatever its truthiness.  A non-integral number
is likewise rejected.  (The CPython message quotes the type name; the
quote marks are elided here.) -/
def pySplitlinesPy (s : String) (keepends : PyVal) : Except PyErr (List String) :=
  match keepends with
  | PyVal.bool b => Except.ok (pySplitlines s b)
  | PyVal.num q =>
      if q.den = 1 then Except.ok (pySplitlines s (decide (q ≠ 0)))
      else Except.error (PyErr.typeError "float object cannot be interpreted as an integer")
  | PyVal.str _ =>
      Except.error (PyErr.typeError "str object cannot be interpreted as an integer")
  | PyVal.null =>
      Except.error (PyErr.typeError "NoneType object cannot be interpreted as an integer")
  | PyVal.list _ =>
      Except.error (PyErr.typeError "list object cannot be interpreted as an integer")
  | PyVal.dict _ =>
      Except.error (PyErr.typeError "dict object cannot be interpreted as an integer")

/-- Embedding of `sanitize_line_ends` from `src/scripts/transform_jinja2.py`
(lines 33-35):

    def sanitize_line_ends(value: str) -> str:
        return ", ".join(value.splitlines(value))

The string `value` itself is passed as the `keepends` argument of
`splitlines`.  CPython does not coerce it by truthiness: the `keepends`
argument converter accepts only booleans and integers, so the
`splitlines` call raises `TypeError` for every string `value` and the
join is never reached. -/
def sanitize_line_ends (value : String) : Except PyErr String :=
  (pySplitlinesPy value (PyVal.str value)).map
    (fun segs => String.intercalate ", " segs)

/-- Embedding of `tif_filter` from `src/scripts/transform_jinja2.py`
(lines 21-24), registered in the template environment as `tif`:

    def tif_filter(time: float, value: float, *function_name) -> str:
        assignment = "(= ({}) {})".format(' '.join(function_name), value)
        return "(at {} {})".format(time, assignment) if time > 0 else assignment

Numbers are modelled as rationals; string formatting of a number is
`toString`, standing for the host's default rendering. -/
def tif_filter (time : ℚ) (value : ℚ) (function_name : List String) : String :=
  let assignment :=
    "(= (" ++ String.intercalate " " function_name ++ ") " ++ toString value ++ ")"
  if time > 0 then
    "(at " ++ toString time ++ " " ++ assignment ++ ")"
  else
    assignment

/-- Names tagging the two concrete filter functions, used to record which
filters a script installs in the template environment before rendering.
`tifF` stands for `tif_filter` and `mapattrF` for `map_filter`. -/
inductive FilterFun where
  | tifF
  | mapattrF
deriving DecidableEq

/-- The filter registry installed by `src/scripts/transform_jinja2.py`
(lines 48-49): `tif` bound to `tif_filter`, `mapattr` to `map_filter`. -/
def mainFilters : List (String × FilterFun) :=
  [("tif", FilterFun.tifF), ("mapattr", FilterFun.mapattrF)]

/-- Observable I/O events of one script run, in program order. -/
inductive ScriptEvent where
  | readStdin
  | readDataFile (path : String)
  | writeStdout (s : String)
  | writeStderr (s : String)
  | exitProc (code : Int)
deriving DecidableEq

/-- The host environment a script run interacts with: whether importing
`jinja2` succeeds, the text waiting on standard input, the command line, the
combined behaviour of `io.open` + `json.load` on a path, the template
engine's `render` (a function of the template text, the installed filter
registry and the `data` binding), the runtime identifier `sys.version`,
the rendering of `datetime.datetime.now()`, and the traceback text the
interpreter prints for an uncaught exception. -/
structure ScriptEnv where
  jinja2Available : Bool
  stdinText : String
  argv0 : String
  args : List String
  readJson : String → Except PyErr PyVal
  render : String → List (String × FilterFun) → PyVal → Except PyErr String
  pyVersion : String
  nowStr : String
  traceback : PyErr → String

/-- The remediation message `eprint`ed when importing jinja2 fails
(`src/scripts/transform_jinja2.py` line 15; identical in the client copy).
`eprint` is a bare `sys.stderr.write`, so no newline is appended. -/
def jinja2MissingMsg : String :=
  "Jinja2 is not installed. Run this command in the terminal: python -m pip install jinja2"

/-- Model of `os.path.basename` for POSIX paths: the part after the last
slash. -/
def pyBasename (p : String) : String :=
  (p.splitOn "/").getLastD ""

/-- The usage message written when no argument is given
(`src/scripts/transform_jinja2.py` line 40): the result of
`"Usage: {0} <data.json>".format(os.path.basename(sys.argv[0]))`,
written by `eprint` without a newline. -/
def usageMsg (argv0 : String) : String :=
  "Usage: " ++ pyBasename argv0 ++ " <data.json>"

/-- Event trace of running `src/scripts/transform_jinja2.py` as a program:
module load (the `jinja2` import with its `except ImportError` handler,
then `template_text = "".join(sys.stdin.readlines())`), then `main(sys.argv[1:])`.
An uncaught exception — from `json.load`/`io.open`, from `render`, or from
`sanitize_line_ends(sys.version)` while building the third trailer line —
makes the interpreter print a traceback to standard error and exit with
status 1; in the last case the rendered text and the banner line have
already been printed.  `exit(-1)` records its argument; all that matters
below is that it is non-zero. -/
def scriptMain (env : ScriptEnv) : List ScriptEvent :=
  if env.jinja2Available = false then
    [ScriptEvent.writeStderr jinja2MissingMsg, ScriptEvent.exitProc (-1)]
  else
    let template_text := env.stdinText
    ScriptEvent.readStdin ::
      (if env.args.length < 1 then
        [ScriptEvent.writeStderr (usageMsg env.argv0), ScriptEvent.exitProc (-1)]
      else
        let data_path := env.args.headD ""
        ScriptEvent.readDataFile data_path ::
          (match env.readJson data_path with
          | Except.error e =>
              [ScriptEvent.writeStderr (env.traceback e), ScriptEvent.exitProc 1]
          | Except.ok input_data =>
              match env.render template_text mainFilters input_data with
              | Except.error e =>
                  [ScriptEvent.writeStderr (env.traceback e), ScriptEvent.exitProc 1]
              | Except.ok rendered =>
                  ScriptEvent.writeStdout (rendered ++ "\n") ::
                  ScriptEvent.writeStdout
                    "; This PDDL problem file was generated using Jinja2 template\n" ::
                  (match sanitize_line_ends env.pyVersion with
                  | Except.error e =>
                      [ScriptEvent.writeStderr (env.traceback e),
                       ScriptEvent.exitProc 1]
                  | Except.ok sanitized =>
                      [ScriptEvent.writeStdout
                         (";    Python: " ++ sanitized ++ "\n"),
                       ScriptEvent.writeStdout (";    Data: " ++ data_path ++ "\n"),
                       ScriptEvent.writeStdout (";    Time: " ++ env.nowStr ++ "\n"),
                       ScriptEvent.exitProc 0])))

/-- Event trace of running `src/client/scripts/transform_jinja2.py`, the
variant script: identical module load and driver, but no filters are
installed on the template (the `Template(template_text)` object keeps an
empty custom-filter registry) and the `Python:` trailer line prints
`sys.version` directly, without `sanitize_line_ends`. -/
def scriptClient (env : ScriptEnv) : List ScriptEvent :=
  if env.jinja2Available = false then
    [ScriptEvent.writeStderr jinja2MissingMsg, ScriptEvent.exitProc (-1)]
  else
    let template_text := env.stdinText
    ScriptEvent.readStdin ::
      (if env.args.length < 1 then
        [ScriptEvent.writeStderr (usageMsg env.argv0), ScriptEvent.exitProc (-1)]
      else
        let data_path := env.args.headD ""
        ScriptEvent.readDataFile data_path ::
          (match env.readJson data_path with
          | Except.error e =>
              [ScriptEvent.writeStderr (env.traceback e), ScriptEvent.exitProc 1]
          | Except.ok input_data =>
              match env.render template_text [] input_data with
              | Except.error e =>
                  [ScriptEvent.writeStderr (env.traceback e), ScriptEvent.exitProc 1]
              | Except.ok rendered =>
                  [ScriptEvent.writeStdout (rendered ++ "\n"),
                   ScriptEvent.writeStdout
                     "; This PDDL problem file was generated using Jinja2 template\n",
                   ScriptEvent.writeStdout (";    Python: " ++ env.pyVersion ++ "\n"),
                   ScriptEvent.writeStdout (";    Data: " ++ data_path ++ "\n"),
                   ScriptEvent.writeStdout (";    Time: " ++ env.nowStr ++ "\n"),
                   ScriptEvent.exitProc 0]))

/-- Modelled from the spec (section 4.4 driver and section 4.5 variant):
the driver pipeline parametrised by the filter registry installed before
rendering and by the (fallible) sanitiser applied to the runtime
identifier in the trailer; an exception from the sanitiser behaves like
any uncaught exception (traceback to standard error, exit 1), occurring
after the rendered text and the banner have been printed.  The variant
without custom filters is this driver with an empty registry and the
never-failing identity sanitiser. -/
def genericScript (filters : List (String × FilterFun))
    (sanitizer : String → Except PyErr String) (env : ScriptEnv) :
    List ScriptEvent :=
  if env.jinja2Available = false then
    [ScriptEvent.writeStderr jinja2MissingMsg, ScriptEvent.exitProc (-1)]
  else
    ScriptEvent.readStdin ::
      (if env.args.length < 1 then
        [ScriptEvent.writeStderr (usageMsg env.argv0), ScriptEvent.exitProc (-1)]
      else
        let data_path := env.args.headD ""
        ScriptEvent.readDataFile data_path ::
          (match env.readJson data_path with
          | Except.error e =>
              [ScriptEvent.writeStderr (env.traceback e), ScriptEvent.exitProc 1]
          | Except.ok input_data =>
              match env.render env.stdinText filters input_data with
              | Except.error e =>
                  [ScriptEvent.writeStderr (env.traceback e), ScriptEvent.exitProc 1]
              | Except.ok rendered =>
                  ScriptEvent.writeStdout (rendered ++ "\n") ::
                  ScriptEvent.writeStdout
                    "; This PDDL problem file was generated using Jinja2 template\n" ::
                  (match sanitizer env.pyVersion with
                  | Except.error e =>
                      [ScriptEvent.writeStderr (env.traceback e),
                       ScriptEvent.exitProc 1]
                  | Except.ok sanitized =>
                      [ScriptEvent.writeStdout
                         (";    Python: " ++ sanitized ++ "\n"),
                       ScriptEvent.writeStdout (";    Data: " ++ data_path ++ "\n"),
                       ScriptEvent.writeStdout (";    Time: " ++ env.nowStr ++ "\n"),
                       ScriptEvent.exitProc 0])))

/-- Everything a trace writes to standard output, concatenated in order. -/
def stdoutOf : List ScriptEvent → String
  | [] => ""
  | ScriptEvent.writeStdout s :: rest => s ++ stdoutOf rest
  | _ :: rest => stdoutOf rest

/-- Everything a trace writes to standard error, concatenated in order. -/
def stderrOf : List ScriptEvent → String
  | [] => ""
  | ScriptEvent.writeStderr s :: rest => s ++ stderrOf rest
  | _ :: rest => stderrOf rest

/-- C1: the claim says that for a mapping M containing key k,
`mapattr(M, k, d) = M[k]`.  The code tests presence with `hasattr`, which
on a dict checks attributes of the dict TYPE, never its stored keys: at
M = a dict mapping "x" to 42, k = "x", d = 0, the key is present with
entry 42, yet `hasattr` is false and the filter returns the default 0.
This theorem evaluates the embedded code at that failing input. -/
theorem C1_mapattr_present_divergence :
    dictLookup [("x", PyVal.num 42)] "x" = some (PyVal.num 42) ∧
    pyHasattr (PyVal.dict [("x", PyVal.num 42)]) "x" = false ∧
    map_filter (PyVal.dict [("x", PyVal.num 42)]) "x" (PyVal.num 0) =
      Except.ok (PyVal.num 0) ∧
    (Except.ok (PyVal.num 0) : Except PyErr PyVal) ≠ Except.ok (PyVal.num 42) := by
  refine ⟨rfl, rfl, rfl, ?_⟩
  intro h
  injection h with h1
  injection h1 with h2
  exact absurd h2 (by norm_num)

/-- C2: the claim says `sanitize_line_ends` replaces every line terminator
by ", " and that its result contains no raw terminators.  The code passes
the string value itself as the `keepends` argument of `splitlines`, and
CPython's `keepends` argument converter admits only booleans and integers,
so the call raises `TypeError` for EVERY input string and the function
never returns a value: on input "a\nb" the code raises instead of
producing the claimed "a, b".  This theorem evaluates the embedded code at
that failing input, and on all inputs. -/
theorem C2_sanitize_typeerror_divergence :
    sanitize_line_ends "a\nb" =
      Except.error
        (PyErr.typeError "str object cannot be interpreted as an integer") ∧
    (∀ v : String, sanitize_line_ends v =
      Except.error
        (PyErr.typeError "str object cannot be interpreted as an integer")) ∧
    sanitize_line_ends "a\nb" ≠ Except.ok "a, b" := by
  refine ⟨rfl, fun v => rfl, ?_⟩
  intro h
  exact Except.noConfusion h

/-- C3: `tif(t, v, t1, ..., tn)` returns
"(at <t> (= (<t1 ... tn>) <v>))" when t is strictly greater than zero and
"(= (<t1 ... tn>) <v>)" otherwise; in particular negative time is treated
like zero (the source comparison is `time > 0`), and the name tokens are
joined by single spaces in order. -/
theorem C3_tif_time_cases (t v : ℚ) (ns : List String) :
    (t > 0 → tif_filter t v ns =
      "(at " ++ toString t ++ " " ++
        ("(= (" ++ String.intercalate " " ns ++ ") " ++ toString v ++ ")") ++ ")") ∧
    (t ≤ 0 → tif_filter t v ns =
      "(= (" ++ String.intercalate " " ns ++ ") " ++ toString v ++ ")") := by
  unfold tif_filter
  constructor
  · intro h
    rw [if_pos h]
  · intro h
    rw [if_neg (not_lt.mpr h)]

/-- Witness for C3 at t = 10, t = 0 and t = -1 with v = 5 and name tokens
["fuel", "truck1"] (the spec scenarios S2 and S3). -/
theorem C3_tif_time_cases_witness :
    tif_filter 10 5 ["fuel", "truck1"] = "(at 10 (= (fuel truck1) 5))" ∧
    tif_filter 0 5 ["fuel", "truck1"] = "(= (fuel truck1) 5)" ∧
    tif_filter (-1) 5 ["fuel", "truck1"] = "(= (fuel truck1) 5)" := by
  refine ⟨?_, ?_, ?_⟩
  · rw [(C3_tif_time_cases 10 5 ["fuel", "truck1"]).1 (by norm_num)]
    decide
  · rw [(C3_tif_time_cases 0 5 ["fuel", "truck1"]).2 (by norm_num)]
    decide
  · rw [(C3_tif_time_cases (-1) 5 ["fuel", "truck1"]).2 (by norm_num)]
    decide

/-- C5 counterexample: the claim says that for every value V without key k
the filter returns the default.  At V = the empty mapping and k = "keys"
the key is absent, yet `hasattr` is true ("keys" is a dict method), the
item lookup is attempted, and a `KeyError` is raised instead of returning
the default 0. -/
theorem C5_mapattr_absent_counterexample :
    dictLookup [] "keys" = none ∧
    map_filter (PyVal.dict []) "keys" (PyVal.num 0) =
      Except.error (PyErr.keyError "keys") ∧
    map_filter (PyVal.dict []) "keys" (PyVal.num 0) ≠ Except.ok (PyVal.num 0) := by
  refine ⟨rfl, rfl, ?_⟩
  intro h
  exact Except.noConfusion h

/-- C5 amended: for every value V on which the attribute-presence check
fails (`hasattr(V, k)` is false — in particular a mapping whose absent key
k is not one of the mapping type's own attribute names),
`mapattr(V, k, d)` returns the default d, and with the default argument
omitted it returns the null marker None. -/
theorem C5_mapattr_absent_amended (v : PyVal) (k : String) (d : PyVal)
    (h : pyHasattr v k = false) :
    map_filter v k d = Except.ok d ∧
    map_filter_nodefault v k = Except.ok PyVal.null := by
  refine ⟨?_, ?_⟩ <;> simp [map_filter_nodefault, map_filter, h]

/-- Witness for the amended C5 at V = a dict with single key "x", k = "y"
(an ordinary absent key), d = 0. -/
theorem C5_mapattr_absent_witness :
    pyHasattr (PyVal.dict [("x", PyVal.num 1)]) "y" = false ∧
    map_filter (PyVal.dict [("x", PyVal.num 1)]) "y" (PyVal.num 0) =
      Except.ok (PyVal.num 0) ∧
    map_filter_nodefault (PyVal.dict [("x", PyVal.num 1)]) "y" =
      Except.ok PyVal.null := by
  have h := C5_mapattr_absent_amended (PyVal.dict [("x", PyVal.num 1)]) "y"
    (PyVal.num 0) rfl
  exact ⟨rfl, h.1, h.2⟩

/-- C9: the `tif` filter is total over call shapes with zero trailing name
tokens: no error is raised and the joined name is empty, giving
"(= () <value>)", wrapped in "(at <time> ...)" for positive time. -/
theorem C9_tif_empty_names (t v : ℚ) :
    (t > 0 → tif_filter t v [] =
      "(at " ++ toString t ++ " " ++ ("(= () " ++ toString v ++ ")") ++ ")") ∧
    (t ≤ 0 → tif_filter t v [] = "(= () " ++ toString v ++ ")") := by
  have hasg :
      "(= (" ++ String.intercalate " " ([] : List String) ++ ") " ++ toString v ++ ")" =
        "(= () " ++ toString v ++ ")" := by
    congr 2
  constructor
  · intro h
    unfold tif_filter
    rw [if_pos h, hasg]
  · intro h
    unfold tif_filter
    rw [if_neg (not_lt.mpr h), hasg]

/-- Witness for C9 at t = 0 and t = 10 with v = 5. -/
theorem C9_tif_empty_names_witness :
    tif_filter 0 5 [] = "(= () 5)" ∧
    tif_filter 10 5 [] = "(at 10 (= () 5))" := by
  constructor
  · rw [(C9_tif_empty_names 0 5).2 (by norm_num)]
    decide
  · rw [(C9_tif_empty_names 10 5).1 (by norm_num)]
    decide

/-- Concrete environment for the C4 and C8 statements: jinja2 importable,
template "(problem p1)" on stdin, one argument "data.json" parsing to a
one-entry mapping, an engine that renders the template text unchanged
(with either registry), and a traceback rendering that surfaces the
TypeError message. -/
def envC4 : ScriptEnv :=
  ⟨true, "(problem p1)", "transform_jinja2.py", ["data.json"],
   fun _ => Except.ok (PyVal.dict [("name", PyVal.str "p1")]),
   fun t _ _ => Except.ok t, "3.11.0", "2026-10-12 00:00:00",
   fun e =>
     match e with
     | PyErr.typeError m => "TypeError: " ++ m
     | _ => "Traceback"⟩

/-- C4: the claim says that on a successful render standard output is the
rendered template followed by exactly the four trailer lines.  In the code
the third trailer line evaluates `sanitize_line_ends(sys.version)`, which
raises `TypeError` on every string, so the program prints only the
rendered text and the banner, then writes a traceback to standard error
and exits with status 1; the `Python:`, `Data:` and `Time:` lines are
never printed.  This theorem evaluates the embedded code at a concrete
successful render. -/
theorem C4_trailer_crash_divergence :
    scriptMain envC4 =
      [ScriptEvent.readStdin,
       ScriptEvent.readDataFile "data.json",
       ScriptEvent.writeStdout ("(problem p1)" ++ "\n"),
       ScriptEvent.writeStdout
         "; This PDDL problem file was generated using Jinja2 template\n",
       ScriptEvent.writeStderr
         "TypeError: str object cannot be interpreted as an integer",
       ScriptEvent.exitProc 1] ∧
    stdoutOf (scriptMain envC4) =
      "(problem p1)" ++ "\n" ++
        "; This PDDL problem file was generated using Jinja2 template\n" ∧
    ScriptEvent.exitProc 0 ∉ scriptMain envC4 := by
  refine ⟨rfl, by decide, by decide⟩

/-- C6: when the jinja2 import fails, the program writes the one-line
remediation message to standard error and exits with the non-zero status
-1, without reading standard input or any data file and with empty
standard output. -/
theorem C6_engine_missing (env : ScriptEnv)
    (h : env.jinja2Available = false) :
    scriptMain env =
      [ScriptEvent.writeStderr jinja2MissingMsg, ScriptEvent.exitProc (-1)] ∧
    ScriptEvent.readStdin ∉ scriptMain env ∧
    (∀ p, ScriptEvent.readDataFile p ∉ scriptMain env) ∧
    stdoutOf (scriptMain env) = "" ∧
    stderrOf (scriptMain env) = jinja2MissingMsg ∧
    jinja2MissingMsg.data.any isLineBreak = false ∧
    (-1 : Int) ≠ 0 := by
  have htrace : scriptMain env =
      [ScriptEvent.writeStderr jinja2MissingMsg, ScriptEvent.exitProc (-1)] := by
    simp [scriptMain, h]
  refine ⟨htrace, ?_, ?_, ?_, ?_, by decide, by decide⟩
  · rw [htrace]
    simp
  · intro p
    rw [htrace]
    simp
  · rw [htrace]
    simp [stdoutOf]
  · rw [htrace]
    simp [stderrOf, String.append_empty]

/-- Concrete environment for the C6 witness: the jinja2 import fails. -/
def envC6 : ScriptEnv :=
  ⟨false, "(problem p1)", "transform_jinja2.py", ["data.json"],
   fun _ => Except.ok PyVal.null, fun t _ _ => Except.ok t,
   "3.11.0", "2026-10-12 00:00:00", fun _ => ""⟩

/-- Witness for C6 in the concrete environment `envC6`. -/
theorem C6_engine_missing_witness :
    scriptMain envC6 =
      [ScriptEvent.writeStderr jinja2MissingMsg, ScriptEvent.exitProc (-1)] ∧
    ScriptEvent.readStdin ∉ scriptMain envC6 ∧
    (∀ p, ScriptEvent.readDataFile p ∉ scriptMain envC6) ∧
    stdoutOf (scriptMain envC6) = "" ∧
    stderrOf (scriptMain envC6) = jinja2MissingMsg ∧
    jinja2MissingMsg.data.any isLineBreak = false ∧
    (-1 : Int) ≠ 0 :=
  C6_engine_missing envC6 rfl

/-- C7: with zero positional arguments the program writes the usage line
naming the program basename and "<data.json>" to standard error and exits
with the non-zero status -1. -/
theorem C7_usage_line (env : ScriptEnv)
    (hj : env.jinja2Available = true) (ha : env.args = []) :
    scriptMain env =
      [ScriptEvent.readStdin,
       ScriptEvent.writeStderr (usageMsg env.argv0),
       ScriptEvent.exitProc (-1)] ∧
    stderrOf (scriptMain env) =
      "Usage: " ++ pyBasename env.argv0 ++ " <data.json>" ∧
    (-1 : Int) ≠ 0 := by
  have htrace : scriptMain env =
      [ScriptEvent.readStdin,
       ScriptEvent.writeStderr (usageMsg env.argv0),
       ScriptEvent.exitProc (-1)] := by
    simp [scriptMain, hj, ha]
  refine ⟨htrace, ?_, by decide⟩
  rw [htrace]
  simp [stderrOf, usageMsg, String.append_empty]

/-- Concrete environment for the C7 witness: no arguments, program invoked
as "scripts/transform_jinja2.py". -/
def envC7 : ScriptEnv :=
  ⟨true, "(problem p1)", "scripts/transform_jinja2.py", [],
   fun _ => Except.ok PyVal.null, fun t _ _ => Except.ok t,
   "3.11.0", "2026-10-12 00:00:00", fun _ => ""⟩

/-- Witness for C7 in the concrete environment `envC7`. -/
theorem C7_usage_line_witness :
    scriptMain envC7 =
      [ScriptEvent.readStdin,
       ScriptEvent.writeStderr (usageMsg "scripts/transform_jinja2.py"),
       ScriptEvent.exitProc (-1)] ∧
    stderrOf (scriptMain envC7) =
      "Usage: " ++ pyBasename "scripts/transform_jinja2.py" ++ " <data.json>" ∧
    (-1 : Int) ≠ 0 :=
  C7_usage_line envC7 rfl rfl

/-- C10: with zero positional arguments the program still consumes all of
standard input first — the template is read at module load, before the
argument-count check — and only then writes the usage line and exits
non-zero: the trace starts with the stdin read, followed by the usage
write and the exit. -/
theorem C10_stdin_read_before_usage (env : ScriptEnv)
    (hj : env.jinja2Available = true) (ha : env.args = []) :
    (scriptMain env).head? = some ScriptEvent.readStdin ∧
    scriptMain env =
      ScriptEvent.readStdin ::
        [ScriptEvent.writeStderr (usageMsg env.argv0),
         ScriptEvent.exitProc (-1)] := by
  have htrace : scriptMain env =
      ScriptEvent.readStdin ::
        [ScriptEvent.writeStderr (usageMsg env.argv0),
         ScriptEvent.exitProc (-1)] := by
    simp [scriptMain, hj, ha]
  exact ⟨by rw [htrace]; rfl, htrace⟩

/-- Concrete environment for the C10 witness. -/
def envC10 : ScriptEnv :=
  ⟨true, "(problem p1)", "transform_jinja2.py", [],
   fun _ => Except.ok PyVal.null, fun t _ _ => Except.ok t,
   "3.11.0", "2026-10-12 00:00:00", fun _ => ""⟩

/-- Witness for C10 in the concrete environment `envC10`. -/
theorem C10_stdin_read_before_usage_witness :
    (scriptMain envC10).head? = some ScriptEvent.readStdin ∧
    scriptMain envC10 =
      ScriptEvent.readStdin ::
        [ScriptEvent.writeStderr (usageMsg "transform_jinja2.py"),
         ScriptEvent.exitProc (-1)] :=
  C10_stdin_read_before_usage envC10 rfl rfl

/-- Concrete environment for the C8 counterexample: identical successful
render for both scripts. -/
def envC8 : ScriptEnv :=
  ⟨true, "(problem p1)", "transform_jinja2.py", ["data.json"],
   fun _ => Except.ok (PyVal.dict [("name", PyVal.str "p1")]),
   fun t _ _ => Except.ok t, "3.11.0", "2026-10-12 00:00:00",
   fun e =>
     match e with
     | PyErr.typeError m => "TypeError: " ++ m
     | _ => "Traceback"⟩

/-- C8 counterexample: on the same successful-render environment the
variant script prints the full four-line trailer and exits 0, while the
main script aborts with a `TypeError` right after the banner (traceback to
standard error, exit 1) because `sanitize_line_ends` raises on every
string.  The two scripts therefore differ in more than the filter registry
and the sanitisation of the `Python:` line, refuting "all other behaviour
is the same". -/
theorem C8_variant_counterexample :
    scriptClient envC8 =
      [ScriptEvent.readStdin,
       ScriptEvent.readDataFile "data.json",
       ScriptEvent.writeStdout ("(problem p1)" ++ "\n"),
       ScriptEvent.writeStdout
         "; This PDDL problem file was generated using Jinja2 template\n",
       ScriptEvent.writeStdout (";    Python: " ++ "3.11.0" ++ "\n"),
       ScriptEvent.writeStdout (";    Data: " ++ "data.json" ++ "\n"),
       ScriptEvent.writeStdout (";    Time: " ++ "2026-10-12 00:00:00" ++ "\n"),
       ScriptEvent.exitProc 0] ∧
    scriptMain envC8 =
      [ScriptEvent.readStdin,
       ScriptEvent.readDataFile "data.json",
       ScriptEvent.writeStdout ("(problem p1)" ++ "\n"),
       ScriptEvent.writeStdout
         "; This PDDL problem file was generated using Jinja2 template\n",
       ScriptEvent.writeStderr
         "TypeError: str object cannot be interpreted as an integer",
       ScriptEvent.exitProc 1] ∧
    ScriptEvent.exitProc 0 ∈ scriptClient envC8 ∧
    ScriptEvent.exitProc 0 ∉ scriptMain envC8 := by
  refine ⟨rfl, rfl, by decide, by decide⟩

/-- C8 amended: the variant script is the shared driver pipeline with an
empty filter registry and the runtime identifier emitted as-is (a
never-failing sanitiser), and the main script is that same pipeline with
the tif/mapattr registry and `sanitize_line_ends`; input reading,
rendering with the single `data` binding, and the error paths up to the
banner coincide, BUT `sanitize_line_ends` raises `TypeError` on every
string, so on every successful render the main script aborts at the
`Python:` trailer line (traceback, exit 1) where the variant prints the
full trailer and exits 0. -/
theorem C8_variant_amended_refinement (env : ScriptEnv) :
    scriptClient env = genericScript [] (fun s => Except.ok s) env ∧
    scriptMain env = genericScript mainFilters sanitize_line_ends env ∧
    (∀ v : String, sanitize_line_ends v =
      Except.error
        (PyErr.typeError "str object cannot be interpreted as an integer")) := by
  refine ⟨rfl, rfl, fun v => rfl⟩
